import Mathlib

/-!
Shallow embedding of the world-structure editor of the dungeon_maze
repository: the chunk/cell data model (src/editor/src/lib/types),
the load-time validation and repair (WorldStructureEditorPage.tsx and
lib/utils), the grid layout queries and the editing operations of
WorldStructureEditor/index.tsx, and the JSON document format
(lib/schemas.ts together with downloadAsJsonFile).

TypeScript arrays become Lean lists, objects become structures, and the
in-place mutations of the repair loop become the corresponding pure
functions.  Chunk coordinates are integers, as the document format
requires.
-/

/-- Wall state enum, from `CellWall` in src/editor/src/lib/types (part_003). -/
inductive CellWall where
  | None
  | Solid
  | SolidWithDoorGap
  | SolidWithWindowGap
deriving DecidableEq, Repr

/-- Special-object enum, from `CellSpecial` in src/editor/src/lib/types. -/
inductive CellSpecial where
  | None
  | Chair
  | TreasureChest
  | Staircase
  | Stairs
deriving DecidableEq, Repr

/-- Atomic editable unit, from the `Cell` type in src/editor/src/lib/types. -/
structure Cell where
  wall_top : CellWall
  wall_bottom : CellWall
  wall_left : CellWall
  wall_right : CellWall
  floor : CellWall
  ceiling : CellWall
  door_top : Bool
  door_bottom : Bool
  door_left : Bool
  door_right : Bool
  window_top : Bool
  window_bottom : Bool
  window_left : Bool
  window_right : Bool
  special : CellSpecial
deriving DecidableEq, Repr

/-- Chunk record, from the `Chunk` type in src/editor/src/lib/types.  The
`cells` field is the row-major grid of cells (`Cell[][]` in the source). -/
structure Chunk where
  x : Int
  y : Int
  z : Int
  cells : List (List Cell)
  world_structure : String
deriving DecidableEq, Repr

/-- Top-level document, from the `WorldStructure` type in
src/editor/src/lib/types. -/
structure WorldStructure where
  chunks : List Chunk
deriving DecidableEq, Repr

/-- Default cell constructor `newCell` from src/editor/src/lib/types/new.ts. -/
def newCell : Cell where
  wall_top := CellWall.None
  wall_bottom := CellWall.None
  wall_left := CellWall.None
  wall_right := CellWall.None
  floor := CellWall.None
  ceiling := CellWall.None
  door_top := false
  door_bottom := false
  door_left := false
  door_right := false
  window_top := false
  window_bottom := false
  window_left := false
  window_right := false
  special := CellSpecial.None

/-- Chunk constructor `newChunk` from src/editor/src/lib/types/new.ts: a
4 by 4 grid of default cells (`new Array(4).fill(new Array(4).fill(newCell()))`)
and the sentinel owner name. -/
def newChunk (x y z : Int) : Chunk where
  x := x
  y := y
  z := z
  cells := List.replicate 4 (List.replicate 4 newCell)
  world_structure := "None"

/-- Empty document constructor `newWorldStructure` from
src/editor/src/lib/types/new.ts. -/
def newWorldStructure : WorldStructure where
  chunks := []

/-- Coordinate triple of a chunk, used to state the uniqueness invariant. -/
def chunkCoord (ch : Chunk) : Int × Int × Int :=
  (ch.x, ch.y, ch.z)

/-- Pure rendering of `fillToLength` from src/editor/src/lib/utils
(part_004): when the array is shorter than `length`, values produced by the
thunk are pushed until the length is reached; a longer array is returned
unchanged.  The thunk is pure here, so it becomes a plain value. -/
def fillToLength (arr : List α) (t : α) (length : Nat) : List α :=
  arr ++ List.replicate (length - arr.length) t

/-- String helper `stripSuffixIfExists` from src/editor/src/lib/utils.
JavaScript's `s.endsWith(suffix)` and `s.slice(0, s.length - suffix.length)`
are modelled on the character sequence of the string: a suffix test on
`s.data` and a prefix `take`. -/
def stripSuffixIfExists (s suffix : String) : String :=
  if suffix.data.isSuffixOf s.data then
    String.mk (s.data.take (s.data.length - suffix.data.length))
  else s

/-- Load-time shape repair of one chunk, from the loop body in
`handleLoadFromFile` (src/editor/src/pages/WorldStructureEditorPage.tsx,
lines 28-38): only when the chunk has fewer than 4 rows, empty rows are
appended via `fillToLength(chunk.cells, () => [], 4)` and then every row
with fewer than 4 cells is filled with `newCell` via
`fillToLength(row, newCell, 4)`. -/
def repairChunk (c : Chunk) : Chunk :=
  if c.cells.length < 4 then
    { c with
      cells := (fillToLength c.cells [] 4).map
        (fun row => if row.length < 4 then fillToLength row newCell 4 else row) }
  else c

/-- Load-time shape repair of the whole document: the `for` loop of
`handleLoadFromFile` over `ws.chunks`. -/
def repairWorldStructure (ws : WorldStructure) : WorldStructure :=
  { ws with chunks := ws.chunks.map repairChunk }

/-- The reduce in `calcXZRadius` from
src/editor/src/components/WorldStructureEditor/index.tsx, lines 18-30,
translated comparison for comparison: both `absX > acc` and `absZ > acc`
compare against the accumulator `acc`, and the second branch overwrites
`max`. -/
def calcXZRadius (ws : WorldStructure) : Int :=
  ws.chunks.foldl
    (fun acc curr =>
      let m1 := if |curr.x| > acc then |curr.x| else acc
      if |curr.z| > acc then |curr.z| else m1)
    0

/-- One step of the `leastY` / `greatestY` loop in `WorldStructureEditor`
(index.tsx lines 64-72): `if (chunk.y < leastY) ... else if (chunk.y >
greatestY) ...`. -/
def yRangeStep (acc : Int × Int) (ch : Chunk) : Int × Int :=
  if ch.y < acc.1 then (ch.y, acc.2)
  else if ch.y > acc.2 then (acc.1, ch.y)
  else acc

/-- The `(leastY, greatestY)` computation of `WorldStructureEditor`
(index.tsx lines 64-72), starting from `(0, 0)`. -/
def calcYRange (ws : WorldStructure) : Int × Int :=
  ws.chunks.foldl yRangeStep (0, 0)

/-- The immutable update protocol `handleChunkUpdate` from index.tsx lines
76-88: chunks selected by the predicate get every cell rewritten by
`newCellFunc`; all other chunks are carried over. -/
def handleChunkUpdate (ws : WorldStructure) (chunkPredicate : Chunk → Bool)
    (newCellFunc : Cell → Cell) : WorldStructure :=
  { ws with
    chunks := ws.chunks.map fun ch =>
      if chunkPredicate ch then
        { ch with cells := ch.cells.map (fun row => row.map newCellFunc) }
      else ch }

/-- The set-as-origin operation `onOriginChunkChangeIntent` from index.tsx
lines 175-185: one map over all chunks, writing `name` on the chunk whose
coordinates match the target and the sentinel on every other chunk. -/
def onOriginChunkChangeIntent (ws : WorldStructure) (cx cy cz : Int)
    (name : String) : WorldStructure :=
  { ws with
    chunks := ws.chunks.map fun ch =>
      { ch with
        world_structure :=
          if ch.x = cx ∧ ch.y = cy ∧ ch.z = cz then name else "None" } }

/-- Column clear, from the `onClearIntent` of the X heading (index.tsx
lines 206-211): keep every chunk whose `x` differs from the heading's. -/
def clearColumn (ws : WorldStructure) (x0 : Int) : WorldStructure :=
  { ws with chunks := ws.chunks.filter (fun ch => ch.x != x0) }

/-- Row clear, from the `onClearIntent` of the Z heading (index.tsx lines
237-242): keep every chunk whose `z` differs from the heading's. -/
def clearRow (ws : WorldStructure) (z0 : Int) : WorldStructure :=
  { ws with chunks := ws.chunks.filter (fun ch => ch.z != z0) }

/-- Add-chunk-from-empty-slot, the `DummyChunkSection` click handler of
index.tsx lines 191-197: append a fresh chunk at the slot's coordinates.
The slot exists only where the layer lookup found no chunk. -/
def addChunkFromEmptySlot (ws : WorldStructure) (x chunkY z : Int) : WorldStructure :=
  { ws with chunks := ws.chunks ++ [newChunk x chunkY z] }

/-- Extend -Y, from index.tsx lines 116-122: prepend a fresh chunk at
`(0, leastY - 1, 0)`. -/
def extendNegY (ws : WorldStructure) : WorldStructure :=
  { ws with chunks := newChunk 0 ((calcYRange ws).1 - 1) 0 :: ws.chunks }

/-- Extend +Y, from index.tsx lines 127-133: append a fresh chunk at
`(0, greatestY + 1, 0)`. -/
def extendPosY (ws : WorldStructure) : WorldStructure :=
  { ws with chunks := ws.chunks ++ [newChunk 0 ((calcYRange ws).2 + 1) 0] }

/-- Top-row plus button of index.tsx lines 264-275: the grid cell sits at
`z = -xzRadius`, so the new chunk is prepended at `(x, chunkY, -xzRadius - 1)`. -/
def addChunkTopEdge (ws : WorldStructure) (chunkY x : Int) : WorldStructure :=
  { ws with chunks := newChunk x chunkY (-(calcXZRadius ws) - 1) :: ws.chunks }

/-- Bottom-row plus button of index.tsx lines 278-289: appended at
`(x, chunkY, xzRadius + 1)`. -/
def addChunkBottomEdge (ws : WorldStructure) (chunkY x : Int) : WorldStructure :=
  { ws with chunks := ws.chunks ++ [newChunk x chunkY (calcXZRadius ws + 1)] }

/-- Left-column plus button of index.tsx lines 292-303: prepended at
`(-xzRadius - 1, chunkY, z)`. -/
def addChunkLeftEdge (ws : WorldStructure) (chunkY z : Int) : WorldStructure :=
  { ws with chunks := newChunk (-(calcXZRadius ws) - 1) chunkY z :: ws.chunks }

/-- Right-column plus button of index.tsx lines 306-317: appended at
`(xzRadius + 1, chunkY, z)`. -/
def addChunkRightEdge (ws : WorldStructure) (chunkY z : Int) : WorldStructure :=
  { ws with chunks := ws.chunks ++ [newChunk (calcXZRadius ws + 1) chunkY z] }

/-!
JSON document format.  `downloadAsJsonFile` serializes the structure with
`JSON.stringify`, and loading goes through `safeSchemaParseJSON` with
`WorldStructureSchema` (src/editor/src/lib/schemas.ts).  The JSON text
itself is modelled by its parse tree.
-/

/-- Parse tree of a JSON document (the value `JSON.parse` produces). -/
inductive Json where
  | null
  | bool (b : Bool)
  | num (n : Int)
  | str (s : String)
  | arr (elems : List Json)
  | obj (fields : List (String × Json))

/-- Property lookup on a parsed JSON object, as zod's object schema reads
each declared key. -/
def jGet (fields : List (String × Json)) (key : String) : Option Json :=
  (fields.find? (fun p => p.1 == key)).map (fun p => p.2)

/-- Element-wise validation of a JSON array, as `z.array(schema)` checks
every element and rejects the whole array on any failure. -/
def optionMapList (p : Json → Option α) : List Json → Option (List α)
  | [] => some []
  | j :: rest => do
    let a ← p j
    let as ← optionMapList p rest
    some (a :: as)

/-- Validation of `z.nativeEnum(CellWall)`: the serialized string tags of
the enum from src/editor/src/lib/types. -/
def parseCellWall : Json → Option CellWall
  | Json.str "None" => some CellWall.None
  | Json.str "Solid" => some CellWall.Solid
  | Json.str "SolidWithDoorGap" => some CellWall.SolidWithDoorGap
  | Json.str "SolidWithWindowGap" => some CellWall.SolidWithWindowGap
  | _ => none

/-- Validation of `z.nativeEnum(CellSpecial)`. -/
def parseCellSpecial : Json → Option CellSpecial
  | Json.str "None" => some CellSpecial.None
  | Json.str "Chair" => some CellSpecial.Chair
  | Json.str "TreasureChest" => some CellSpecial.TreasureChest
  | Json.str "Staircase" => some CellSpecial.Staircase
  | Json.str "Stairs" => some CellSpecial.Stairs
  | _ => none

/-- Validation of `z.boolean()`. -/
def parseBoolJson : Json → Option Bool
  | Json.bool b => some b
  | _ => none

/-- Validation of `z.number()` on the integer-valued documents this
editor reads and writes. -/
def parseIntJson : Json → Option Int
  | Json.num n => some n
  | _ => none

/-- Validation of `z.string()`. -/
def parseStringJson : Json → Option String
  | Json.str s => some s
  | _ => none

/-- Validation of a JSON array by a schema for its elements. -/
def parseArrayJson (p : Json → Option α) : Json → Option (List α)
  | Json.arr xs => optionMapList p xs
  | _ => none

/-- The `cellSchema` object schema of src/editor/src/lib/schemas.ts: all
fifteen fields must be present and well-typed, anything else rejects. -/
def parseCell : Json → Option Cell
  | Json.obj fields => do
    let wt ← jGet fields "wall_top" >>= parseCellWall
    let wb ← jGet fields "wall_bottom" >>= parseCellWall
    let wl ← jGet fields "wall_left" >>= parseCellWall
    let wr ← jGet fields "wall_right" >>= parseCellWall
    let fl ← jGet fields "floor" >>= parseCellWall
    let ce ← jGet fields "ceiling" >>= parseCellWall
    let dt ← jGet fields "door_top" >>= parseBoolJson
    let db ← jGet fields "door_bottom" >>= parseBoolJson
    let dl ← jGet fields "door_left" >>= parseBoolJson
    let dr ← jGet fields "door_right" >>= parseBoolJson
    let wint ← jGet fields "window_top" >>= parseBoolJson
    let winb ← jGet fields "window_bottom" >>= parseBoolJson
    let winl ← jGet fields "window_left" >>= parseBoolJson
    let winr ← jGet fields "window_right" >>= parseBoolJson
    let sp ← jGet fields "special" >>= parseCellSpecial
    some
      { wall_top := wt, wall_bottom := wb, wall_left := wl, wall_right := wr
        floor := fl, ceiling := ce
        door_top := dt, door_bottom := db, door_left := dl, door_right := dr
        window_top := wint, window_bottom := winb, window_left := winl
        window_right := winr, special := sp }
  | _ => none

/-- The `ChunkSchema` of src/editor/src/lib/schemas.ts. -/
def parseChunk : Json → Option Chunk
  | Json.obj fields => do
    let x ← jGet fields "x" >>= parseIntJson
    let y ← jGet fields "y" >>= parseIntJson
    let z ← jGet fields "z" >>= parseIntJson
    let cells ← jGet fields "cells" >>= parseArrayJson (parseArrayJson parseCell)
    let wsName ← jGet fields "world_structure" >>= parseStringJson
    some { x := x, y := y, z := z, cells := cells, world_structure := wsName }
  | _ => none

/-- The `WorldStructureSchema` of src/editor/src/lib/schemas.ts. -/
def parseWorldStructure : Json → Option WorldStructure
  | Json.obj fields => do
    let chunks ← jGet fields "chunks" >>= parseArrayJson parseChunk
    some { chunks := chunks }
  | _ => none

/-- Serialization of a wall state, as `JSON.stringify` writes the string
enum value. -/
def cellWallToJson : CellWall → Json
  | CellWall.None => Json.str "None"
  | CellWall.Solid => Json.str "Solid"
  | CellWall.SolidWithDoorGap => Json.str "SolidWithDoorGap"
  | CellWall.SolidWithWindowGap => Json.str "SolidWithWindowGap"

/-- Serialization of a special tag. -/
def cellSpecialToJson : CellSpecial → Json
  | CellSpecial.None => Json.str "None"
  | CellSpecial.Chair => Json.str "Chair"
  | CellSpecial.TreasureChest => Json.str "TreasureChest"
  | CellSpecial.Staircase => Json.str "Staircase"
  | CellSpecial.Stairs => Json.str "Stairs"

/-- Serialization of one cell, in the field order of the `Cell` object
literal that `JSON.stringify` walks in `downloadAsJsonFile`. -/
def encodeCell (c : Cell) : Json :=
  Json.obj
    [("wall_top", cellWallToJson c.wall_top),
     ("wall_bottom", cellWallToJson c.wall_bottom),
     ("wall_left", cellWallToJson c.wall_left),
     ("wall_right", cellWallToJson c.wall_right),
     ("floor", cellWallToJson c.floor),
     ("ceiling", cellWallToJson c.ceiling),
     ("door_top", Json.bool c.door_top),
     ("door_bottom", Json.bool c.door_bottom),
     ("door_left", Json.bool c.door_left),
     ("door_right", Json.bool c.door_right),
     ("window_top", Json.bool c.window_top),
     ("window_bottom", Json.bool c.window_bottom),
     ("window_left", Json.bool c.window_left),
     ("window_right", Json.bool c.window_right),
     ("special", cellSpecialToJson c.special)]

/-- Serialization of one chunk. -/
def encodeChunk (c : Chunk) : Json :=
  Json.obj
    [("x", Json.num c.x),
     ("y", Json.num c.y),
     ("z", Json.num c.z),
     ("cells", Json.arr (c.cells.map (fun row => Json.arr (row.map encodeCell)))),
     ("world_structure", Json.str c.world_structure)]

/-- Serialization of the whole document, as `downloadAsJsonFile` writes it. -/
def encodeWorldStructure (ws : WorldStructure) : Json :=
  Json.obj [("chunks", Json.arr (ws.chunks.map encodeChunk))]

/-- Outcome of `safeSchemaParseJSON(s, WorldStructureSchema)` from
src/editor/src/lib/utils: the `Option Json` argument is the outcome of
`safeParseJSON` (`none` on a JSON parse failure), and the schema rejects
whatever does not validate. -/
def safeSchemaParseWorldStructure (doc : Option Json) : Option WorldStructure :=
  doc.bind parseWorldStructure

/-- Session state of `WorldStructureEditorPage` (WorldStructureEditorPage.tsx):
the current document and the session name. -/
structure SessionState where
  worldStructure : WorldStructure
  name : String
deriving DecidableEq, Repr

/-- State transition of `handleLoadFromFile`
(src/editor/src/pages/WorldStructureEditorPage.tsx, lines 12-41) once a file
was selected: the session name is set from the file name before parsing,
then the document is schema-validated; on failure only a diagnostic is
logged, on success the repaired structure is installed.  `fileName` is the
selected file's name and `doc` the outcome of JSON-parsing its text. -/
def handleLoadFromFile (st : SessionState) (fileName : String)
    (doc : Option Json) : SessionState :=
  let stNamed := { st with name := stripSuffixIfExists fileName ".json" }
  match safeSchemaParseWorldStructure doc with
  | none => stNamed
  | some ws => { stNamed with worldStructure := repairWorldStructure ws }

/-!
Concrete documents and sessions used as inputs of the closed theorems
below.
-/

/-- Chunk arriving with exactly 4 rows of 3 cells each, a shape the
load-time repair is claimed to pad to 4 by 4. -/
def chunkFourRowsOfThree : Chunk where
  x := 0
  y := 0
  z := 0
  cells := List.replicate 4 (List.replicate 3 newCell)
  world_structure := "None"

/-- Structure with distinct chunks at (2, 0, 0) and (4, 0, 3), on which the
computed XZ radius under-counts the absolute X coordinate. -/
def wsEdgeCollision : WorldStructure := ⟨[newChunk 2 0 0, newChunk 4 0 3]⟩

/-- Non-empty structure whose chunks all sit at Y = 3. -/
def wsAllYThree : WorldStructure := ⟨[newChunk 0 3 0]⟩

/-- Session holding one chunk under the document name "old". -/
def sessionBefore : SessionState where
  worldStructure := ⟨[newChunk 0 0 0]⟩
  name := "old"

/-- Structure with one freshly constructed (hence 4 by 4) chunk. -/
def wsRoundTrip : WorldStructure := ⟨[newChunk 1 2 3]⟩

/-- Structure with two distinct chunks, target of the set-as-origin witness. -/
def wsTwoChunks : WorldStructure := ⟨[newChunk 0 0 0, newChunk 1 0 0]⟩

/-- Structure with a single chunk at the origin. -/
def wsOneChunk : WorldStructure := ⟨[newChunk 0 0 0]⟩

/-!
Helper lemmas: schema-parse inverts serialization, and the shape repair is
inert on chunks that already have at least 4 rows.
-/

/-- Parsing a serialized wall state gives it back. -/
theorem parseCellWall_cellWallToJson (w : CellWall) :
    parseCellWall (cellWallToJson w) = some w := by
  cases w <;> rfl

/-- Parsing a serialized special tag gives it back. -/
theorem parseCellSpecial_cellSpecialToJson (s : CellSpecial) :
    parseCellSpecial (cellSpecialToJson s) = some s := by
  cases s <;> rfl

/-- Parsing a serialized cell gives it back. -/
theorem parseCell_encodeCell (c : Cell) : parseCell (encodeCell c) = some c := by
  obtain ⟨wt, wb, wl, wr, fl, ce, dt, db, dl, dr, wint, winb, winl, winr, sp⟩ := c
  simp +decide [parseCell, encodeCell, jGet, parseCellWall_cellWallToJson,
    parseCellSpecial_cellSpecialToJson, parseBoolJson]

/-- Element-wise validation inverts element-wise serialization. -/
theorem optionMapList_map_encode (p : Json → Option α) (e : α → Json)
    (h : ∀ a, p (e a) = some a) (xs : List α) :
    optionMapList p (xs.map e) = some xs := by
  induction xs with
  | nil => rfl
  | cons a rest ih => simp [optionMapList, h, ih]

/-- Parsing a serialized chunk gives it back. -/
theorem parseChunk_encodeChunk (c : Chunk) : parseChunk (encodeChunk c) = some c := by
  have hrow : ∀ row : List Cell,
      parseArrayJson parseCell (Json.arr (row.map encodeCell)) = some row := by
    intro row
    simp [parseArrayJson,
      optionMapList_map_encode parseCell encodeCell parseCell_encodeCell row]
  obtain ⟨x, y, z, cells, wsn⟩ := c
  simp +decide [parseChunk, encodeChunk, jGet, parseIntJson, parseStringJson,
    parseArrayJson, optionMapList_map_encode _ _ hrow cells]

/-- Parsing a serialized document gives it back. -/
theorem parseWorldStructure_encodeWorldStructure (ws : WorldStructure) :
    parseWorldStructure (encodeWorldStructure ws) = some ws := by
  obtain ⟨chunks⟩ := ws
  simp +decide [parseWorldStructure, encodeWorldStructure, jGet, parseArrayJson,
    optionMapList_map_encode parseChunk encodeChunk parseChunk_encodeChunk chunks]

/-- The shape repair leaves a chunk with at least 4 rows untouched. -/
theorem repairChunk_noop (c : Chunk) (h : ¬ c.cells.length < 4) : repairChunk c = c := by
  simp [repairChunk, h]

/-- The shape repair of one chunk is idempotent: a repaired chunk has at
least 4 rows, so the second pass takes the untouched branch. -/
theorem repairChunk_idem (c : Chunk) : repairChunk (repairChunk c) = repairChunk c := by
  by_cases h : c.cells.length < 4
  · exact repairChunk_noop _ (by simp [repairChunk, h, fillToLength]; omega)
  · rw [repairChunk_noop c h]
    exact repairChunk_noop c h

/-- Counting with a coordinate predicate over a coordinate-distinct chunk
list that contains the target yields exactly one hit. -/
theorem countP_coord_eq_one (l : List Chunk) (t : Int × Int × Int)
    (hnd : (l.map chunkCoord).Nodup) (hmem : ∃ c ∈ l, chunkCoord c = t) :
    l.countP (fun a => decide (chunkCoord a = t)) = 1 := by
  induction l with
  | nil => simp at hmem
  | cons c rest ih =>
    rw [List.map_cons, List.nodup_cons] at hnd
    by_cases hc : chunkCoord c = t
    · rw [List.countP_cons_of_pos _ _ (by simpa using hc)]
      have h0 : rest.countP (fun a => decide (chunkCoord a = t)) = 0 := by
        rw [List.countP_eq_zero]
        intro a ha
        simp only [decide_eq_true_eq]
        intro he
        exact hnd.1 (List.mem_map.mpr ⟨a, ha, by rw [he, ← hc]⟩)
      omega
    · rw [List.countP_cons_of_neg _ _ (by simpa using hc)]
      refine ih hnd.2 ?_
      obtain ⟨d, hd, hdt⟩ := hmem
      rcases List.mem_cons.mp hd with rfl | hdr
      · exact absurd hdt hc
      · exact ⟨d, hdr, hdt⟩

/-- The `leastY` / `greatestY` loop starting from any seed pair `(a, b)`
with `a ≤ b` computes the fold of `min` and the fold of `max` from that
seed: the `else if` never loses an update because the running minimum stays
at most the running maximum. -/
theorem foldl_yRangeStep (l : List Chunk) :
    ∀ a b : Int, a ≤ b →
      l.foldl yRangeStep (a, b) =
        (l.foldl (fun m c => min m c.y) a, l.foldl (fun m c => max m c.y) b) := by
  induction l with
  | nil => intro a b _; rfl
  | cons c rest ih =>
    intro a b h
    have hs : yRangeStep (a, b) c = (min a c.y, max b c.y) := by
      unfold yRangeStep
      split
      · next hy =>
        rw [min_eq_right (le_of_lt hy), max_eq_left (le_trans (le_of_lt hy) h)]
      · next hy =>
        split
        · next hy2 => rw [min_eq_left (not_lt.mp hy), max_eq_right (le_of_lt hy2)]
        · next hy2 => rw [min_eq_left (not_lt.mp hy), max_eq_left (not_lt.mp hy2)]
    simp only [List.foldl_cons, hs]
    exact ih (min a c.y) (max b c.y)
      (le_trans (min_le_left a c.y) (le_trans h (le_max_left b c.y)))

/-!
Claim theorems.
-/

/-- C1: the load-time repair does not pad short rows of a chunk that
already has 4 rows.  A document whose one chunk arrives with exactly 4 rows
of 3 cells each passes through the repair with every row still of length 3,
because the row-padding loop only runs for chunks with fewer than 4 rows. -/
theorem repair_skips_rows_of_four_row_chunk :
    (repairWorldStructure ⟨[chunkFourRowsOfThree]⟩).chunks.map
      (fun c => c.cells.map List.length) = [[3, 3, 3, 3]] := by decide

/-- C2: for the structure containing exactly one chunk at (2, 0, -1) the
computed XZ radius is 1, not the claimed 2: the `absZ` branch of
`calcXZRadius` compares against the fold accumulator instead of the running
maximum and overwrites the larger `absX`. -/
theorem calcXZRadius_chunk_2_0_neg1 :
    calcXZRadius ⟨[newChunk 2 0 (-1)]⟩ = 1 := by decide

/-- C3: a right-column plus button can duplicate an existing coordinate.
With pairwise-distinct chunks at (2, 0, 0) and (4, 0, 3) the computed
radius is 3 (under-counting the absolute X of the second chunk), so the
plus button on the grid row z = 3 appends a fresh chunk at (4, 0, 3), and
the resulting structure has two chunks with the same coordinate triple. -/
theorem addChunkRightEdge_duplicates_coord :
    (wsEdgeCollision.chunks.map chunkCoord).Nodup ∧
    calcXZRadius wsEdgeCollision = 3 ∧
    ¬ (((addChunkRightEdge wsEdgeCollision 0 3).chunks.map chunkCoord).Nodup) := by
  decide

/-- C4: serialize/parse/repair round-trip.  For every structure whose
chunks all have exactly 4 rows of 4 cells, schema-parsing the serialized
document succeeds and the load-time repair returns the original structure
unchanged. -/
theorem repair_parse_encode_roundTrip (S : WorldStructure)
    (h : ∀ c ∈ S.chunks, c.cells.length = 4 ∧ ∀ row ∈ c.cells, row.length = 4) :
    (parseWorldStructure (encodeWorldStructure S)).map repairWorldStructure = some S := by
  rw [parseWorldStructure_encodeWorldStructure, Option.map_some']
  congr 1
  unfold repairWorldStructure
  obtain ⟨chunks⟩ := S
  congr 1
  have hid : ∀ c ∈ chunks, repairChunk c = id c := by
    intro c hc
    have := (h c hc).1
    exact repairChunk_noop c (by omega)
  rw [List.map_congr_left hid, List.map_id]

/-- C4 witness: the round-trip theorem applied to a structure with one
freshly constructed chunk. -/
theorem repair_parse_encode_roundTrip_witness :
    (∀ c ∈ wsRoundTrip.chunks, c.cells.length = 4 ∧ ∀ row ∈ c.cells, row.length = 4) ∧
    (parseWorldStructure (encodeWorldStructure wsRoundTrip)).map repairWorldStructure
      = some wsRoundTrip :=
  ⟨by decide, repair_parse_encode_roundTrip wsRoundTrip (by decide)⟩

/-- C5: after the set-as-origin operation on a coordinate-distinct
structure containing the target coordinate, with a session name other than
the sentinel, exactly one chunk carries the session name as its
`world_structure`, it is the chunk at the target coordinate, and every
other chunk carries the sentinel — all produced by the single replacement
pass of `onOriginChunkChangeIntent`. -/
theorem onOriginChunkChangeIntent_unique_owner (ws : WorldStructure)
    (cx cy cz : Int) (name : String)
    (hnd : (ws.chunks.map chunkCoord).Nodup)
    (hmem : ∃ t ∈ ws.chunks, chunkCoord t = (cx, cy, cz))
    (hname : name ≠ "None") :
    ((onOriginChunkChangeIntent ws cx cy cz name).chunks.countP
        (fun ch => ch.world_structure == name)) = 1 ∧
    ∀ ch ∈ (onOriginChunkChangeIntent ws cx cy cz name).chunks,
      (chunkCoord ch = (cx, cy, cz) → ch.world_structure = name) ∧
      (chunkCoord ch ≠ (cx, cy, cz) → ch.world_structure = "None") := by
  constructor
  · rw [onOriginChunkChangeIntent, List.countP_map]
    have hcong : List.countP ((fun ch => ch.world_structure == name) ∘ fun ch =>
        { ch with world_structure := if ch.x = cx ∧ ch.y = cy ∧ ch.z = cz then name else "None" })
        ws.chunks
        = List.countP (fun a => decide (chunkCoord a = (cx, cy, cz))) ws.chunks := by
      apply List.countP_congr
      intro a _
      by_cases hc : a.x = cx ∧ a.y = cy ∧ a.z = cz
      · simp [Function.comp, hc, chunkCoord, hc.1, hc.2.1, hc.2.2]
      · have hne : chunkCoord a ≠ (cx, cy, cz) := by
          intro he
          exact hc ⟨congrArg Prod.fst he, congrArg (fun p => p.2.1) he,
            congrArg (fun p => p.2.2) he⟩
        simp [Function.comp, hc, hne, Ne.symm hname]
    rw [hcong]
    exact countP_coord_eq_one ws.chunks (cx, cy, cz) hnd hmem
  · intro ch hch
    rw [onOriginChunkChangeIntent] at hch
    obtain ⟨a, ha, rfl⟩ := List.mem_map.mp hch
    constructor
    · intro hcoord
      have hc : a.x = cx ∧ a.y = cy ∧ a.z = cz :=
        ⟨congrArg Prod.fst hcoord, congrArg (fun p => p.2.1) hcoord,
          congrArg (fun p => p.2.2) hcoord⟩
      simp [hc.1, hc.2.1, hc.2.2]
    · intro hcoord
      have hc : ¬ (a.x = cx ∧ a.y = cy ∧ a.z = cz) := by
        intro hc
        exact hcoord (by simp [chunkCoord, Prod.ext_iff, hc.1, hc.2.1, hc.2.2])
      simp [hc]

/-- C5 witness: the set-as-origin theorem applied to a two-chunk structure,
targeting the chunk at (1, 0, 0) with the name "maze". -/
theorem onOriginChunkChangeIntent_unique_owner_witness :
    ((wsTwoChunks.chunks.map chunkCoord).Nodup ∧
     (∃ t ∈ wsTwoChunks.chunks, chunkCoord t = (1, 0, 0)) ∧
     ("maze" : String) ≠ "None") ∧
    ((onOriginChunkChangeIntent wsTwoChunks 1 0 0 "maze").chunks.countP
        (fun ch => ch.world_structure == "maze")) = 1 ∧
    ∀ ch ∈ (onOriginChunkChangeIntent wsTwoChunks 1 0 0 "maze").chunks,
      (chunkCoord ch = (1, 0, 0) → ch.world_structure = "maze") ∧
      (chunkCoord ch ≠ (1, 0, 0) → ch.world_structure = "None") :=
  ⟨⟨by decide, by decide, by decide⟩,
   onOriginChunkChangeIntent_unique_owner wsTwoChunks 1 0 0 "maze"
     (by decide) (by decide) (by decide)⟩

/-- C6: non-interference of the immutable update protocol.  The update
keeps the chunk list length (and hence order, witnessed position by
position), and every position holding a chunk the predicate rejects holds
the structurally identical chunk afterwards. -/
theorem handleChunkUpdate_frame (ws : WorldStructure) (p : Chunk → Bool) (f : Cell → Cell) :
    (handleChunkUpdate ws p f).chunks.length = ws.chunks.length ∧
    ∀ (i : Nat) (ch : Chunk), ws.chunks[i]? = some ch → p ch = false →
      (handleChunkUpdate ws p f).chunks[i]? = some ch := by
  constructor
  · simp [handleChunkUpdate]
  · intro i ch hi hp
    simp [handleChunkUpdate, List.getElem?_map, hi, hp]

/-- C6 witness: the frame theorem applied to a one-chunk structure with a
predicate rejecting that chunk. -/
theorem handleChunkUpdate_frame_witness :
    (handleChunkUpdate wsOneChunk (fun ch => ch.x == 1) id).chunks.length
      = wsOneChunk.chunks.length ∧
    (handleChunkUpdate wsOneChunk (fun ch => ch.x == 1) id).chunks[0]?
      = some (newChunk 0 0 0) :=
  ⟨(handleChunkUpdate_frame wsOneChunk (fun ch => ch.x == 1) id).1,
   (handleChunkUpdate_frame wsOneChunk (fun ch => ch.x == 1) id).2 0 (newChunk 0 0 0)
     (by decide) (by decide)⟩

/-- C7 counterexample: a non-empty structure whose chunks all have Y = 3
does not get minY = 3: the loop accumulators start at (0, 0), so the result
is (0, 3) and not the claimed (3, 3). -/
theorem calcYRange_not_min_max_present :
    wsAllYThree.chunks ≠ [] ∧ (∀ c ∈ wsAllYThree.chunks, c.y = 3) ∧
    calcYRange wsAllYThree ≠ (3, 3) := by decide

/-- C7 as amended: `calcYRange` returns the minimum and the maximum of the
chunks' Y coordinates taken together with 0, i.e. the folds of `min` and
`max` seeded with 0 — so (0, 0) for the empty structure, and (0, 3) for a
structure whose chunks all have Y = 3. -/
theorem calcYRange_min_max_zero (ws : WorldStructure) :
    calcYRange ws = (ws.chunks.foldl (fun m c => min m c.y) 0,
                     ws.chunks.foldl (fun m c => max m c.y) 0) :=
  foldl_yRangeStep ws.chunks 0 0 le_rfl

/-- C8 counterexample: a load whose document fails schema validation leaves
the world structure unchanged but still renames the session: loading a file
named "bad.json" with an unparseable document into a session named "old"
ends with the session named "bad". -/
theorem handleLoadFromFile_failure_changes_name :
    safeSchemaParseWorldStructure (some (Json.str "nope")) = none ∧
    (handleLoadFromFile sessionBefore "bad.json" (some (Json.str "nope"))).worldStructure
      = sessionBefore.worldStructure ∧
    (handleLoadFromFile sessionBefore "bad.json" (some (Json.str "nope"))).name
      ≠ sessionBefore.name := by decide

/-- C8 as amended: on a failed load (JSON parse failure or schema
mismatch), the current world structure is left unchanged and only a
diagnostic is logged, but the session's document name is set to the
selected file's name with a ".json" suffix stripped — the renaming happens
before validation and is not rolled back. -/
theorem handleLoadFromFile_failure_frame (st : SessionState) (fileName : String)
    (doc : Option Json) (h : safeSchemaParseWorldStructure doc = none) :
    (handleLoadFromFile st fileName doc).worldStructure = st.worldStructure ∧
    (handleLoadFromFile st fileName doc).name = stripSuffixIfExists fileName ".json" := by
  simp [handleLoadFromFile, h]

/-- C8 witness: the amended frame theorem applied to a failed load of
"maze.json" carrying a JSON null. -/
theorem handleLoadFromFile_failure_frame_witness :
    safeSchemaParseWorldStructure (some Json.null) = none ∧
    ((handleLoadFromFile sessionBefore "maze.json" (some Json.null)).worldStructure
        = sessionBefore.worldStructure ∧
     (handleLoadFromFile sessionBefore "maze.json" (some Json.null)).name
        = stripSuffixIfExists "maze.json" ".json") :=
  ⟨rfl, handleLoadFromFile_failure_frame sessionBefore "maze.json" (some Json.null) rfl⟩

/-- C9: the load-time shape repair is idempotent on every schema-valid
document: a repaired chunk has at least 4 rows, so a second pass changes
nothing. -/
theorem repairWorldStructure_idempotent (ws : WorldStructure) :
    repairWorldStructure (repairWorldStructure ws) = repairWorldStructure ws := by
  unfold repairWorldStructure
  congr 1
  rw [List.map_map]
  exact List.map_congr_left (fun c _ => repairChunk_idem c)

/-- C10: the column clear keeps exactly the chunks whose X differs from the
cleared one and the row clear keeps exactly the chunks whose Z differs,
irrespective of their Y layer or other coordinate, and both carry the kept
chunks over unchanged and in order (as sublists of the original). -/
theorem clearColumnRow_filter_axis (ws : WorldStructure) (x0 z0 : Int) (ch : Chunk) :
    (ch ∈ (clearColumn ws x0).chunks ↔ ch ∈ ws.chunks ∧ ch.x ≠ x0) ∧
    (ch ∈ (clearRow ws z0).chunks ↔ ch ∈ ws.chunks ∧ ch.z ≠ z0) ∧
    List.Sublist (clearColumn ws x0).chunks ws.chunks ∧
    List.Sublist (clearRow ws z0).chunks ws.chunks := by
  refine ⟨?_, ?_, List.filter_sublist _, List.filter_sublist _⟩ <;>
    simp [clearColumn, clearRow, List.mem_filter]
